import Mathlib

/-!
Verification of the drowsiness-detection stream stabilizer and the Y2M
conversion pipeline glue, embedded from the repository's Python sources
(`test_inference.py`, `test_tflite_inference.py`, `y2m/utils.py`,
`y2m/cli.py`, `y2m/optimizer.py`).

Confidences are modelled as rational numbers; labels and states as strings,
exactly the strings the source compares against.
-/

namespace Drowsiness

/-- A detection as carried through the loop: `(class_name, confidence)`.
Geometry is irrelevant to the stabilizer and is dropped by the source
itself when it stores `current_detection = (class_name, conf)`. -/
abbrev Det := String × ℚ

/-- One step of the best-detection scan:
`if current_detection is None or conf > current_detection[1]:
current_detection = (class_name, conf)`. -/
def pickBest (cur : Option Det) (d : Det) : Option Det :=
  match cur with
  | none => some d
  | some c => if d.2 > c.2 then some d else some c

/-- The best-detection reducer of `test_webcam`: scan the frame's raw
detections, keeping the current one unless a later one has strictly
greater confidence. -/
def bestDetection (dets : List Det) : Option Det :=
  dets.foldl pickBest none

/-- `deque(maxlen=5).append`: append on the right, keeping only the last
5 elements (the oldest is evicted when the deque is full). -/
def dequeAppend (w : List Det) (d : Det) : List Det :=
  ((w ++ [d]).drop ((w ++ [d]).length - 5))

/-- `drowsy_count = sum(1 for d in detection_history if d[0] == 'drowsy')`. -/
def drowsy_count (w : List Det) : ℕ :=
  (w.filter (fun d => d.1 = "drowsy")).length

/-- `notdrowsy_count = sum(1 for d in detection_history if d[0] == 'notdrowsy')`. -/
def notdrowsy_count (w : List Det) : ℕ :=
  (w.filter (fun d => d.1 = "notdrowsy")).length

/-- `avg_conf = sum(d[1] for d in detection_history) / len(detection_history)`. -/
def avg_conf (w : List Det) : ℚ :=
  (w.map Prod.snd).sum / w.length

/-- The majority-vote state of the non-empty window:
`"DROWSY"` / `"ALERT"` / `"UNCERTAIN"`. -/
def computeState (w : List Det) : String :=
  if drowsy_count w > notdrowsy_count w then "DROWSY"
  else if notdrowsy_count w > drowsy_count w then "ALERT"
  else "UNCERTAIN"

/-- The loop-carried state of `test_webcam`: `inference_count`,
`detection_history` (a `deque(maxlen=5)`), and `last_reported_state`
(`None` before the first report). -/
structure StabState where
  inference_count : ℕ
  detection_history : List Det
  last_reported_state : Option String
  deriving Repr, DecidableEq

/-- The state at the top of the loop: counter 0, empty history, no
last-reported state. -/
def initState : StabState := ⟨0, [], none⟩

/-- A report printed by the loop: either a state report
(frame, state, avg confidence, drowsy count, notdrowsy count) or the
"No detections in recent frames" line. -/
inductive Report where
  | stateReport (frame : ℕ) (st : String) (avg : ℚ) (dCount aCount : ℕ)
  | noDetection (frame : ℕ)
  deriving Repr, DecidableEq

/-- Window maintenance for one frame: if the frame produced a best
detection append it (evicting the oldest when full), otherwise leave
the window unchanged. -/
def windowUpdate (w : List Det) (dets : List Det) : List Det :=
  match bestDetection dets with
  | some d => dequeAppend w d
  | none => w

/-- One iteration of the `test_webcam` loop body on the detections of a
single frame: increment `inference_count`, ingest the best detection into
`detection_history`, then run the reporting cadence logic. -/
def step (s : StabState) (dets : List Det) : StabState × Option Report :=
  let cnt := s.inference_count + 1
  let w := windowUpdate s.detection_history dets
  if 1 ≤ w.length ∧ cnt % 5 = 0 then
    let st := computeState w
    if some st ≠ s.last_reported_state ∨ cnt % 30 = 0 then
      (⟨cnt, w, some st⟩,
        some (Report.stateReport cnt st (avg_conf w) (drowsy_count w) (notdrowsy_count w)))
    else
      (⟨cnt, w, s.last_reported_state⟩, none)
  else if w.length = 0 ∧ cnt % 30 = 0 then
    (⟨cnt, w, s.last_reported_state⟩, some (Report.noDetection cnt))
  else
    (⟨cnt, w, s.last_reported_state⟩, none)

/-- Run the loop from a given state over a list of frames (each frame is
its list of raw detections), returning the final state. -/
def runState (s : StabState) (frames : List (List Det)) : StabState :=
  frames.foldl (fun s f => (step s f).1) s

/-- The reports emitted while running the loop from a given state over a
list of frames, in order. -/
def runReports (s : StabState) (frames : List (List Det)) : List Report :=
  match frames with
  | [] => []
  | f :: fs =>
    match step s f with
    | (s', some r) => r :: runReports s' fs
    | (s', none) => runReports s' fs

/-- Shorthand for the window after ingesting the frame. -/
def postWindow (s : StabState) (dets : List Det) : List Det :=
  windowUpdate s.detection_history dets

lemma step_report (s : StabState) (dets : List Det)
    (h1 : postWindow s dets ≠ [])
    (h2 : (s.inference_count + 1) % 5 = 0)
    (h3 : some (computeState (postWindow s dets)) ≠ s.last_reported_state ∨
      (s.inference_count + 1) % 30 = 0) :
    step s dets =
      (⟨s.inference_count + 1, postWindow s dets, some (computeState (postWindow s dets))⟩,
        some (Report.stateReport (s.inference_count + 1) (computeState (postWindow s dets))
          (avg_conf (postWindow s dets)) (drowsy_count (postWindow s dets))
          (notdrowsy_count (postWindow s dets)))) := by
  have hlen : 1 ≤ (postWindow s dets).length := List.length_pos.mpr h1
  simp only [step, postWindow] at *
  rw [if_pos ⟨hlen, h2⟩, if_pos h3]

lemma step_mute (s : StabState) (dets : List Det)
    (h1 : postWindow s dets ≠ [])
    (h2 : (s.inference_count + 1) % 5 = 0)
    (h3 : ¬ (some (computeState (postWindow s dets)) ≠ s.last_reported_state ∨
      (s.inference_count + 1) % 30 = 0)) :
    step s dets =
      (⟨s.inference_count + 1, postWindow s dets, s.last_reported_state⟩, none) := by
  have hlen : 1 ≤ (postWindow s dets).length := List.length_pos.mpr h1
  simp only [step, postWindow] at *
  rw [if_pos ⟨hlen, h2⟩, if_neg h3]

lemma step_offcadence (s : StabState) (dets : List Det)
    (h1 : postWindow s dets ≠ [])
    (h2 : (s.inference_count + 1) % 5 ≠ 0) :
    step s dets =
      (⟨s.inference_count + 1, postWindow s dets, s.last_reported_state⟩, none) := by
  have hlen : (postWindow s dets).length ≠ 0 :=
    Nat.pos_iff_ne_zero.mp (List.length_pos.mpr h1)
  simp only [step, postWindow] at *
  rw [if_neg (by tauto), if_neg (by tauto)]

lemma step_heartbeat (s : StabState) (dets : List Det)
    (h1 : postWindow s dets = [])
    (h2 : (s.inference_count + 1) % 30 = 0) :
    step s dets =
      (⟨s.inference_count + 1, postWindow s dets, s.last_reported_state⟩,
        some (Report.noDetection (s.inference_count + 1))) := by
  have hlen : (postWindow s dets).length = 0 := by simp [h1]
  simp only [step, postWindow] at *
  rw [if_neg (by omega), if_pos ⟨hlen, h2⟩]

lemma step_empty_mute (s : StabState) (dets : List Det)
    (h1 : postWindow s dets = [])
    (h2 : (s.inference_count + 1) % 30 ≠ 0) :
    step s dets =
      (⟨s.inference_count + 1, postWindow s dets, s.last_reported_state⟩, none) := by
  have hlen : (postWindow s dets).length = 0 := by simp [h1]
  simp only [step, postWindow] at *
  rw [if_neg (by omega), if_neg (by tauto)]

/-- C1: after the window update and the counter increment, a report is
emitted iff (a) the window is non-empty, the counter is a multiple of 5,
and the computed state differs from `last_reported_state` or the counter
is a multiple of 30 — then a state report is emitted and
`last_reported_state` becomes the computed state; or (b) the window is
empty and the counter is a multiple of 30 — then a "no detection in
recent frames" report is emitted and `last_reported_state` is unchanged.
No other frame emits a report. -/
theorem report_cadence (s : StabState) (dets : List Det) (w : List Det) (cnt : ℕ)
    (hw : w = postWindow s dets) (hc : cnt = s.inference_count + 1) :
    ((step s dets).2 ≠ none ↔
      (w ≠ [] ∧ cnt % 5 = 0 ∧
        (some (computeState w) ≠ s.last_reported_state ∨ cnt % 30 = 0)) ∨
      (w = [] ∧ cnt % 30 = 0)) ∧
    (w ≠ [] → cnt % 5 = 0 →
      (some (computeState w) ≠ s.last_reported_state ∨ cnt % 30 = 0) →
      (step s dets).2 = some (Report.stateReport cnt (computeState w)
        (avg_conf w) (drowsy_count w) (notdrowsy_count w)) ∧
      (step s dets).1.last_reported_state = some (computeState w)) ∧
    (w = [] → cnt % 30 = 0 →
      (step s dets).2 = some (Report.noDetection cnt) ∧
      (step s dets).1.last_reported_state = s.last_reported_state) := by
  subst hw hc
  refine ⟨?_, ?_, ?_⟩
  · constructor
    · intro hne
      by_cases h1 : postWindow s dets = []
      · by_cases h2 : (s.inference_count + 1) % 30 = 0
        · exact Or.inr ⟨h1, h2⟩
        · rw [step_empty_mute s dets h1 h2] at hne; simp at hne
      · by_cases h2 : (s.inference_count + 1) % 5 = 0
        · by_cases h3 : some (computeState (postWindow s dets)) ≠ s.last_reported_state ∨
            (s.inference_count + 1) % 30 = 0
          · exact Or.inl ⟨h1, h2, h3⟩
          · rw [step_mute s dets h1 h2 h3] at hne; simp at hne
        · rw [step_offcadence s dets h1 h2] at hne; simp at hne
    · rintro (⟨h1, h2, h3⟩ | ⟨h1, h2⟩)
      · rw [step_report s dets h1 h2 h3]; simp
      · rw [step_heartbeat s dets h1 h2]; simp
  · intro h1 h2 h3
    rw [step_report s dets h1 h2 h3]
    exact ⟨rfl, rfl⟩
  · intro h1 h2
    rw [step_heartbeat s dets h1 h2]
    exact ⟨rfl, rfl⟩

/-- A state at frame 4 whose window holds four drowsy detections. -/
def wit1State : StabState := ⟨4, List.replicate 4 ("drowsy", mkRat 9 10), none⟩

/-- A frame carrying one drowsy detection. -/
def wit1Frame : List Det := [("drowsy", mkRat 9 10)]

theorem report_cadence_witness :
    (step wit1State wit1Frame).2 = some (Report.stateReport 5
        (computeState (postWindow wit1State wit1Frame))
        (avg_conf (postWindow wit1State wit1Frame))
        (drowsy_count (postWindow wit1State wit1Frame))
        (notdrowsy_count (postWindow wit1State wit1Frame))) ∧
    (step wit1State wit1Frame).1.last_reported_state =
      some (computeState (postWindow wit1State wit1Frame)) :=
  (report_cadence wit1State wit1Frame _ 5 rfl rfl).2.1
    (by decide) (by decide) (by decide)

/-- C6: when the counter is not a multiple of 5 and the ingested frame
leaves a non-empty window, no report is emitted, so a state change there
is invisible; at a multiple of 5 with the computed state differing from
`last_reported_state`, the new state is reported. -/
theorem change_deferred (s : StabState) (dets : List Det) (w : List Det) (cnt : ℕ)
    (hw : w = postWindow s dets) (hc : cnt = s.inference_count + 1) :
    (w ≠ [] → cnt % 5 ≠ 0 → (step s dets).2 = none) ∧
    (w ≠ [] → cnt % 5 = 0 → some (computeState w) ≠ s.last_reported_state →
      (step s dets).2 = some (Report.stateReport cnt (computeState w)
        (avg_conf w) (drowsy_count w) (notdrowsy_count w))) := by
  subst hw hc
  constructor
  · intro h1 h2
    rw [step_offcadence s dets h1 h2]
  · intro h1 h2 h3
    rw [step_report s dets h1 h2 (Or.inl h3)]

/-- Twelve frames: ten notdrowsy then two drowsy.  After them the window
is `[nd, nd, nd, d, d]` and the last reported state is `ALERT`; frame 13
carries a drowsy detection, flipping the majority to `DROWSY`. -/
def pre12 : List (List Det) :=
  (List.range 12).map (fun i => if i < 10 then [("notdrowsy", mkRat 9 10)] else [("drowsy", mkRat 9 10)])

/-- A frame carrying one drowsy detection, fed as frame 13 (and again as
frames 14 and 15). -/
def drowsyFrame : List Det := [("drowsy", mkRat 9 10)]

theorem change_deferred_witness :
    (step (runState initState pre12) drowsyFrame).2 = none ∧
    (step (runState initState (pre12 ++ [drowsyFrame, drowsyFrame])) drowsyFrame).2 =
      some (Report.stateReport 15
        (computeState (postWindow (runState initState (pre12 ++ [drowsyFrame, drowsyFrame])) drowsyFrame))
        (avg_conf (postWindow (runState initState (pre12 ++ [drowsyFrame, drowsyFrame])) drowsyFrame))
        (drowsy_count (postWindow (runState initState (pre12 ++ [drowsyFrame, drowsyFrame])) drowsyFrame))
        (notdrowsy_count (postWindow (runState initState (pre12 ++ [drowsyFrame, drowsyFrame])) drowsyFrame))) :=
  ⟨(change_deferred (runState initState pre12) drowsyFrame _ 13 rfl (by decide)).1
      (by decide) (by decide),
    (change_deferred (runState initState (pre12 ++ [drowsyFrame, drowsyFrame])) drowsyFrame _ 15
      rfl (by decide)).2 (by decide) (by decide) (by decide)⟩

lemma step_history (s : StabState) (dets : List Det) :
    (step s dets).1.detection_history = postWindow s dets := by
  simp only [step, postWindow]
  split_ifs <;> rfl

lemma step_count (s : StabState) (dets : List Det) :
    (step s dets).1.inference_count = s.inference_count + 1 := by
  simp only [step]
  split_ifs <;> rfl

lemma windowUpdate_of_none (w : List Det) (dets : List Det)
    (h : bestDetection dets = none) : windowUpdate w dets = w := by
  simp [windowUpdate, h]

lemma dequeAppend_length (w : List Det) (d : Det) :
    (dequeAppend w d).length = min (w.length + 1) 5 := by
  simp [dequeAppend]
  omega

lemma dequeAppend_ne_nil (w : List Det) (d : Det) : dequeAppend w d ≠ [] := by
  intro h
  have := dequeAppend_length w d
  rw [h] at this
  simp at this
  omega

lemma windowUpdate_eq_nil_iff (w : List Det) (dets : List Det) :
    windowUpdate w dets = [] ↔ w = [] ∧ bestDetection dets = none := by
  cases hb : bestDetection dets with
  | none => simp [windowUpdate, hb]
  | some d => simp [windowUpdate, hb, dequeAppend_ne_nil]

/-- C7 (amended): an empty-detection frame leaves the window unchanged,
increments the counter exactly once, and changes `last_reported_state`
only when the regular cadence report fires: the window is non-empty, the
new counter is a multiple of 5, and the state computed from the unchanged
window differs from `last_reported_state`, in which case
`last_reported_state` becomes that state. -/
theorem empty_frame_effect (s : StabState) (dets : List Det)
    (h : bestDetection dets = none) :
    (step s dets).1.detection_history = s.detection_history ∧
    (step s dets).1.inference_count = s.inference_count + 1 ∧
    ((step s dets).1.last_reported_state ≠ s.last_reported_state →
      s.detection_history ≠ [] ∧ (s.inference_count + 1) % 5 = 0 ∧
      some (computeState s.detection_history) ≠ s.last_reported_state ∧
      (step s dets).1.last_reported_state = some (computeState s.detection_history)) := by
  have hpw : postWindow s dets = s.detection_history :=
    windowUpdate_of_none s.detection_history dets h
  refine ⟨by rw [step_history, hpw], step_count s dets, ?_⟩
  intro hch
  by_cases h1 : s.detection_history = []
  · exfalso
    have hpw0 : postWindow s dets = [] := by rw [hpw, h1]
    by_cases h2 : (s.inference_count + 1) % 30 = 0
    · rw [step_heartbeat s dets hpw0 h2] at hch; exact hch rfl
    · rw [step_empty_mute s dets hpw0 h2] at hch; exact hch rfl
  · have hpw1 : postWindow s dets ≠ [] := by rw [hpw]; exact h1
    by_cases h2 : (s.inference_count + 1) % 5 = 0
    · by_cases h3 : some (computeState (postWindow s dets)) ≠ s.last_reported_state ∨
        (s.inference_count + 1) % 30 = 0
      · rw [step_report s dets hpw1 h2 h3] at hch ⊢
        rw [hpw] at hch ⊢
        refine ⟨h1, h2, ?_, rfl⟩
        exact hch
      · exfalso
        rw [step_mute s dets hpw1 h2 h3] at hch
        exact hch rfl
    · exfalso
      rw [step_offcadence s dets hpw1 h2] at hch
      exact hch rfl

/-- A state reachable at frame 9 is needed: five drowsy frames, then
four notdrowsy frames. -/
def seq9 : List (List Det) :=
  (List.range 9).map (fun i => if i < 5 then [("drowsy", mkRat 9 10)] else [("notdrowsy", mkRat 9 10)])

theorem empty_frame_effect_witness :
    (step (runState initState seq9) []).1.detection_history =
      (runState initState seq9).detection_history ∧
    (step (runState initState seq9) []).1.inference_count =
      (runState initState seq9).inference_count + 1 :=
  ⟨(empty_frame_effect (runState initState seq9) [] (by decide)).1,
    (empty_frame_effect (runState initState seq9) [] (by decide)).2.1⟩

/-- The frame number a report is printed with. -/
def reportFrame : Report → ℕ
  | .stateReport n _ _ _ _ => n
  | .noDetection n => n

/-- The state a report announces (`"NO_DETECTION"` for the
"No detections in recent frames" line). -/
def reportLabel : Report → String
  | .stateReport _ st _ _ _ => st
  | .noDetection _ => "NO_DETECTION"

/-- Counterexample for C7 as stated: after five drowsy frames and four
notdrowsy frames, an empty frame at frame 10 — not a multiple of 30, so
not a heartbeat frame — flips `last_reported_state` from `DROWSY` to
`ALERT` through the change-detection report. -/
theorem empty_frame_changes_state_cex :
    bestDetection ([] : List Det) = none ∧
    (runState initState seq9).last_reported_state = some "DROWSY" ∧
    ((runState initState seq9).inference_count + 1) % 30 ≠ 0 ∧
    (step (runState initState seq9) []).1.last_reported_state = some "ALERT" ∧
    ((step (runState initState seq9) []).2.map (fun r => (reportFrame r, reportLabel r))) =
      some (10, "ALERT") := by decide

lemma foldl_windowUpdate_nil_iff (p : List (List Det)) : ∀ w : List Det,
    p.foldl windowUpdate w = [] ↔ w = [] ∧ ∀ g ∈ p, bestDetection g = none := by
  induction p with
  | nil => intro w; simp
  | cons f p ih =>
    intro w
    rw [List.foldl_cons, ih (windowUpdate w f), windowUpdate_eq_nil_iff]
    constructor
    · rintro ⟨⟨hw, hf⟩, hp⟩
      exact ⟨hw, by simpa [hf] using hp⟩
    · rintro ⟨hw, hp⟩
      have hf := hp f (by simp)
      exact ⟨⟨hw, hf⟩, fun g hg => hp g (by simp [hg])⟩

lemma runState_history (frames : List (List Det)) : ∀ s : StabState,
    (runState s frames).detection_history =
      frames.foldl windowUpdate s.detection_history := by
  induction frames with
  | nil => intro s; rfl
  | cons f fs ih =>
    intro s
    rw [runState, List.foldl_cons, List.foldl_cons, ← runState, ih, step_history, postWindow]

lemma step_noDetection_inv (s : StabState) (f : List Det) (n : ℕ)
    (h : (step s f).2 = some (Report.noDetection n)) : postWindow s f = [] := by
  by_contra hne
  by_cases h2 : (s.inference_count + 1) % 5 = 0
  · by_cases h3 : some (computeState (postWindow s f)) ≠ s.last_reported_state ∨
      (s.inference_count + 1) % 30 = 0
    · rw [step_report s f hne h2 h3] at h; simp at h
    · rw [step_mute s f hne h2 h3] at h; simp at h
  · rw [step_offcadence s f hne h2] at h; simp at h

/-- C9: the window is empty after a run exactly when no frame of the run
produced a detection (entries are never cleared, only replaced), so the
"No detections in recent frames" heartbeat can fire only while every
frame so far, the current one included, has carried no detection. -/
theorem window_never_cleared (p : List (List Det)) (f : List Det) (n : ℕ) :
    ((runState initState p).detection_history = [] ↔ ∀ g ∈ p, bestDetection g = none) ∧
    ((step (runState initState p) f).2 = some (Report.noDetection n) →
      (∀ g ∈ p, bestDetection g = none) ∧ bestDetection f = none) := by
  have hrun : (runState initState p).detection_history = [] ↔
      ∀ g ∈ p, bestDetection g = none := by
    rw [runState_history p initState]
    simpa using foldl_windowUpdate_nil_iff p []
  refine ⟨hrun, ?_⟩
  intro h
  have hempty : postWindow (runState initState p) f = [] := step_noDetection_inv _ f n h
  rw [postWindow, windowUpdate_eq_nil_iff] at hempty
  exact ⟨hrun.mp hempty.1, hempty.2⟩

set_option maxRecDepth 4096 in
theorem window_never_cleared_witness :
    (∀ g ∈ List.replicate 29 ([] : List Det), bestDetection g = none) ∧
    bestDetection ([] : List Det) = none :=
  (window_never_cleared (List.replicate 29 ([] : List Det)) [] 30).2 (by decide)

/-- The 30-frame synthetic stream of C2: frames 1–15 carry a single
`(drowsy, 0.9)` detection, frames 16–30 a single `(notdrowsy, 0.9)`. -/
def stream30 : List (List Det) :=
  (List.range 30).map
    (fun i => if i < 15 then [("drowsy", mkRat 9 10)] else [("notdrowsy", mkRat 9 10)])

/-- Counterexample for C2 as stated: on the synthetic 30-frame stream the
loop reports at frames 5, 20 and 30 only — at frames 10 and 15 the state
is still `DROWSY`, equal to `last_reported_state`, and the counter is not
a multiple of 30, so nothing is printed there. -/
theorem scenario30_cex :
    ((runReports initState stream30).map (fun r => (reportFrame r, reportLabel r))) =
      [(5, "DROWSY"), (20, "ALERT"), (30, "ALERT")] ∧
    ¬ ((runReports initState stream30).map (fun r => (reportFrame r, reportLabel r))) =
      [(5, "DROWSY"), (10, "DROWSY"), (15, "DROWSY"), (20, "ALERT"), (30, "ALERT")] := by
  decide

/-- C2 (amended): on the synthetic 30-frame stream (frames 1–15
`(drowsy, 0.9)`, frames 16–30 `(notdrowsy, 0.9)`) the loop emits reports
exactly at frames 5, 20 and 30, with state `DROWSY` at frame 5 and
`ALERT` at frames 20 and 30. -/
theorem scenario30 :
    ((runReports initState stream30).map (fun r => (reportFrame r, reportLabel r))) =
      [(5, "DROWSY"), (20, "ALERT"), (30, "ALERT")] := by
  decide

/-- The 5-entry example window of C3. -/
def exWindow : List Det :=
  [("drowsy", mkRat 9 10), ("drowsy", mkRat 4 5), ("notdrowsy", mkRat 7 10),
   ("drowsy", mkRat 3 5), ("notdrowsy", mkRat 19 20)]

/-- C3: on a non-empty window the state is `DROWSY` iff the drowsy count
strictly exceeds the notdrowsy count, `ALERT` iff the reverse strict
inequality holds, and `UNCERTAIN` iff the counts are equal; entries with
any other label change neither count yet enter the average confidence,
which is the arithmetic mean of all window confidences; on the example
window the counts are 3 and 2, the state `DROWSY`, the average 0.79. -/
theorem classifier_majority (w : List Det) (x : Det) (hw : w ≠ [])
    (hx1 : x.1 ≠ "drowsy") (hx2 : x.1 ≠ "notdrowsy") :
    (computeState w = "DROWSY" ↔ drowsy_count w > notdrowsy_count w) ∧
    (computeState w = "ALERT" ↔ notdrowsy_count w > drowsy_count w) ∧
    (computeState w = "UNCERTAIN" ↔ drowsy_count w = notdrowsy_count w) ∧
    avg_conf w = (w.map Prod.snd).sum / w.length ∧
    drowsy_count (w ++ [x]) = drowsy_count w ∧
    notdrowsy_count (w ++ [x]) = notdrowsy_count w ∧
    avg_conf (w ++ [x]) = ((w.map Prod.snd).sum + x.2) / (w.length + 1) ∧
    drowsy_count exWindow = 3 ∧ notdrowsy_count exWindow = 2 ∧
    computeState exWindow = "DROWSY" ∧ avg_conf exWindow = 79/100 := by
  refine ⟨?_, ?_, ?_, rfl, ?_, ?_, ?_, by decide, by decide, by decide, ?_⟩
  · unfold computeState
    split_ifs with h1 h2 <;> simp_all <;> omega
  · unfold computeState
    split_ifs with h1 h2 <;> simp_all <;> omega
  · unfold computeState
    split_ifs with h1 h2 <;> simp_all <;> omega
  · simp [drowsy_count, List.filter_append, hx1]
  · simp [notdrowsy_count, List.filter_append, hx2]
  · simp only [avg_conf, List.map_append, List.sum_append, List.length_append,
      List.map_cons, List.map_nil, List.sum_cons, List.sum_nil, List.length_cons,
      List.length_nil]
    push_cast
    ring_nf
  · norm_num [avg_conf, exWindow, Rat.mkRat_eq_divInt, Rat.divInt_eq_div]

theorem classifier_majority_witness :
    computeState exWindow = "DROWSY" ∧
    drowsy_count (exWindow ++ [("class_3", mkRat 1 2)]) = drowsy_count exWindow ∧
    notdrowsy_count (exWindow ++ [("class_3", mkRat 1 2)]) = notdrowsy_count exWindow :=
  ⟨(classifier_majority exWindow ("class_3", mkRat 1 2)
      (by decide) (by decide) (by decide)).2.2.2.2.2.2.2.2.2.1,
    (classifier_majority exWindow ("class_3", mkRat 1 2)
      (by decide) (by decide) (by decide)).2.2.2.2.1,
    (classifier_majority exWindow ("class_3", mkRat 1 2)
      (by decide) (by decide) (by decide)).2.2.2.2.2.1⟩

lemma pickBest_foldl_spec (xs : List Det) : ∀ c : Det,
    ∃ r, xs.foldl pickBest (some c) = some r ∧
      ((r = c ∧ ∀ y ∈ xs, y.2 ≤ c.2) ∨
        (∃ l1 l2, xs = l1 ++ r :: l2 ∧ c.2 < r.2 ∧
          (∀ y ∈ l1, y.2 < r.2) ∧ (∀ y ∈ l2, y.2 ≤ r.2))) := by
  induction xs with
  | nil => exact fun c => ⟨c, rfl, Or.inl ⟨rfl, by simp⟩⟩
  | cons y ys ih =>
    intro c
    rw [List.foldl_cons]
    by_cases hy : y.2 > c.2
    · rw [show pickBest (some c) y = some y by simp [pickBest, hy]]
      obtain ⟨r, hr, hcase⟩ := ih y
      refine ⟨r, hr, Or.inr ?_⟩
      rcases hcase with ⟨req, hall⟩ | ⟨l1, l2, hsplit, hlt, h1, h2⟩
      · exact ⟨[], ys, by simp [req], by rw [req]; exact hy, by simp, by simpa [req] using hall⟩
      · exact ⟨y :: l1, l2, by simp [hsplit], lt_trans hy hlt,
          by simpa [hy, hlt] using h1, h2⟩
    · push_neg at hy
      rw [show pickBest (some c) y = some c by simp [pickBest, not_lt.mpr hy]]
      obtain ⟨r, hr, hcase⟩ := ih c
      refine ⟨r, hr, ?_⟩
      rcases hcase with ⟨req, hall⟩ | ⟨l1, l2, hsplit, hlt, h1, h2⟩
      · refine Or.inl ⟨req, ?_⟩
        intro z hz
        rcases List.mem_cons.mp hz with hz | hz
        · rw [hz]; exact hy
        · exact hall z hz
      · refine Or.inr ⟨y :: l1, l2, by simp [hsplit], hlt, ?_, h2⟩
        intro z hz
        rcases List.mem_cons.mp hz with hz | hz
        · rw [hz]; exact lt_of_le_of_lt hy hlt
        · exact h1 z hz

lemma first_max_unique (l1 : List Det) : ∀ (l1b l2 l2b : List Det) (b b2 : Det),
    l1 ++ b :: l2 = l1b ++ b2 :: l2b →
    (∀ y ∈ l1, y.2 < b.2) → (∀ y ∈ l2, y.2 ≤ b.2) →
    (∀ y ∈ l1b, y.2 < b2.2) → (∀ y ∈ l2b, y.2 ≤ b2.2) →
    l1 = l1b ∧ b = b2 := by
  induction l1 with
  | nil =>
    intro l1b l2 l2b b b2 heq h1 h2 h3 h4
    cases l1b with
    | nil =>
      simp only [List.nil_append, List.cons.injEq] at heq
      exact ⟨rfl, heq.1⟩
    | cons x t =>
      exfalso
      simp only [List.nil_append, List.cons_append, List.cons.injEq] at heq
      obtain ⟨hb, hl2⟩ := heq
      have h5 : b2.2 ≤ b.2 := h2 b2 (by rw [hl2]; simp)
      have h6 : b.2 < b2.2 := h3 b (by rw [hb]; simp)
      exact absurd (lt_of_lt_of_le h6 h5) (lt_irrefl _)
  | cons x t ih =>
    intro l1b l2 l2b b b2 heq h1 h2 h3 h4
    cases l1b with
    | nil =>
      exfalso
      simp only [List.nil_append, List.cons_append, List.cons.injEq] at heq
      obtain ⟨hx, hrest⟩ := heq
      have h5 : b.2 ≤ b2.2 := h4 b (by rw [← hrest]; simp)
      have h6 : b2.2 < b.2 := by
        have := h1 x (by simp)
        rwa [hx] at this
      exact absurd (lt_of_le_of_lt h5 h6) (lt_irrefl _)
    | cons x2 t2 =>
      simp only [List.cons_append, List.cons.injEq] at heq
      obtain ⟨hx, hrest⟩ := heq
      have := ih t2 l2 l2b b b2 hrest
        (fun y hy => h1 y (by simp [hy])) h2
        (fun y hy => h3 y (by simp [hy])) h4
      exact ⟨by rw [hx, this.1], this.2⟩

/-- C5: the reducer returns `none` on an empty frame; otherwise it
returns the unique detection whose confidence strictly exceeds that of
every earlier detection and is not exceeded by any later one (so a later
equal-confidence detection never replaces the retained one). -/
theorem best_detection_spec (dets : List Det) :
    (dets = [] → bestDetection dets = none) ∧
    (dets ≠ [] → ∃ b l1 l2, bestDetection dets = some b ∧ dets = l1 ++ b :: l2 ∧
      (∀ y ∈ l1, y.2 < b.2) ∧ (∀ y ∈ l2, y.2 ≤ b.2) ∧
      ∀ b2 l1b l2b, dets = l1b ++ b2 :: l2b → (∀ y ∈ l1b, y.2 < b2.2) →
        (∀ y ∈ l2b, y.2 ≤ b2.2) → l1b = l1 ∧ b2 = b) := by
  cases dets with
  | nil => exact ⟨fun _ => rfl, fun h => absurd rfl h⟩
  | cons x xs =>
    refine ⟨fun h => by simp at h, fun _ => ?_⟩
    have hfold : bestDetection (x :: xs) = xs.foldl pickBest (some x) := rfl
    obtain ⟨r, hr, hcase⟩ := pickBest_foldl_spec xs x
    rcases hcase with ⟨req, hall⟩ | ⟨l1, l2, hsplit, hlt, h1, h2⟩
    · refine ⟨r, [], xs, by rw [hfold, hr], by simp [req], by simp, by simpa [req] using hall, ?_⟩
      intro b2 l1b l2b heq h3 h4
      have := first_max_unique [] l1b xs l2b r b2 (by simpa [req] using heq)
        (by simp) (by simpa [req] using hall) h3 h4
      exact ⟨this.1.symm, this.2.symm⟩
    · refine ⟨r, x :: l1, l2, by rw [hfold, hr], by simp [hsplit], ?_, h2, ?_⟩
      · intro z hz
        rcases List.mem_cons.mp hz with hz | hz
        · rw [hz]; exact hlt
        · exact h1 z hz
      · intro b2 l1b l2b heq h3 h4
        have := first_max_unique (x :: l1) l1b l2 l2b r b2 (by simpa [hsplit] using heq)
          (by intro z hz
              rcases List.mem_cons.mp hz with hz | hz
              · rw [hz]; exact hlt
              · exact h1 z hz) h2 h3 h4
        exact ⟨this.1.symm, this.2.symm⟩

/-- A three-detection frame whose first detection has low confidence and
whose second and third tie at the maximum: the reducer must keep the
second. -/
def tieFrame : List Det :=
  [("notdrowsy", mkRat 1 2), ("drowsy", mkRat 9 10), ("drowsy", mkRat 9 10)]

theorem best_detection_spec_witness :
    ∃ b l1 l2, bestDetection tieFrame = some b ∧ tieFrame = l1 ++ b :: l2 ∧
      (∀ y ∈ l1, y.2 < b.2) ∧ (∀ y ∈ l2, y.2 ≤ b.2) ∧
      ∀ b2 l1b l2b, tieFrame = l1b ++ b2 :: l2b → (∀ y ∈ l1b, y.2 < b2.2) →
        (∀ y ∈ l2b, y.2 ≤ b2.2) → l1b = l1 ∧ b2 = b :=
  (best_detection_spec tieFrame).2 (by decide)

lemma dequeAppend_le_five (w : List Det) (d : Det) : (dequeAppend w d).length ≤ 5 := by
  rw [dequeAppend_length]
  omega

lemma windowUpdate_le_five (w : List Det) (dets : List Det) (h : w.length ≤ 5) :
    (windowUpdate w dets).length ≤ 5 := by
  cases hb : bestDetection dets with
  | none => simpa [windowUpdate, hb] using h
  | some d => simpa [windowUpdate, hb] using dequeAppend_le_five w d

lemma foldl_windowUpdate_le_five (frames : List (List Det)) : ∀ w : List Det,
    w.length ≤ 5 → (frames.foldl windowUpdate w).length ≤ 5 := by
  induction frames with
  | nil => exact fun w h => h
  | cons f fs ih => exact fun w h => ih _ (windowUpdate_le_five w f h)

lemma foldl_dequeAppend_eq (xs : List Det) : ∀ w : List Det, w.length ≤ 5 →
    xs.foldl dequeAppend w = (w ++ xs).drop ((w ++ xs).length - 5) := by
  induction xs with
  | nil =>
    intro w h
    simp only [List.foldl_nil, List.append_nil]
    rw [Nat.sub_eq_zero_of_le h, List.drop_zero]
  | cons x xs ih =>
    intro w h
    rw [List.foldl_cons, ih (dequeAppend w x) (dequeAppend_le_five w x)]
    have h1 : dequeAppend w x ++ xs = List.drop ((w ++ [x]).length - 5) (w ++ [x] ++ xs) := by
      rw [dequeAppend, List.drop_append_of_le_length (Nat.sub_le (w ++ [x]).length 5)]
    rw [h1, List.drop_drop, show w ++ [x] ++ xs = w ++ x :: xs by simp]
    congr 1
    simp only [List.length_drop, List.length_append, List.length_cons, List.length_nil]
    omega

lemma filterMap_best_length (post : List (List Det))
    (h : ∀ f ∈ post, (bestDetection f).isSome) :
    (post.filterMap bestDetection).length = post.length := by
  induction post with
  | nil => rfl
  | cons f fs ih =>
    obtain ⟨d, hd⟩ := Option.isSome_iff_exists.mp (h f (by simp))
    rw [List.filterMap_cons, hd]
    simp only [List.length_cons]
    rw [ih (fun g hg => h g (by simp [hg]))]

lemma foldl_windowUpdate_detected (post : List (List Det)) : ∀ w : List Det,
    (∀ f ∈ post, (bestDetection f).isSome) →
    post.foldl windowUpdate w = (post.filterMap bestDetection).foldl dequeAppend w := by
  induction post with
  | nil => intro w _; rfl
  | cons f fs ih =>
    intro w h
    obtain ⟨d, hd⟩ := Option.isSome_iff_exists.mp (h f (by simp))
    rw [List.foldl_cons, List.filterMap_cons, hd, List.foldl_cons,
      show windowUpdate w f = dequeAppend w d by simp [windowUpdate, hd]]
    exact ih (dequeAppend w d) (fun g hg => h g (by simp [hg]))

/-- C4: the history window never holds more than 5 entries; ingesting a
detection appends it, evicting exactly the oldest entry when the window
already holds 5 (strict FIFO); and after any prefix followed by 5
consecutive detection-carrying frames the window holds exactly those 5
most recent detections in arrival order. -/
theorem window_invariant (frames pre post : List (List Det)) (w : List Det) (d : Det)
    (hw : w.length ≤ 5) (hlen : post.length = 5)
    (hdet : ∀ f ∈ post, (bestDetection f).isSome) :
    (runState initState frames).detection_history.length ≤ 5 ∧
    dequeAppend w d = (if w.length = 5 then w.drop 1 else w) ++ [d] ∧
    (runState initState (pre ++ post)).detection_history = post.filterMap bestDetection := by
  refine ⟨?_, ?_, ?_⟩
  · rw [runState_history]
    exact foldl_windowUpdate_le_five frames [] (by simp)
  · rw [dequeAppend]
    by_cases h5 : w.length = 5
    · rw [if_pos h5, show (w ++ [d]).length - 5 = 1 by simp [h5],
        List.drop_append_of_le_length (by omega)]
    · rw [if_neg h5, show (w ++ [d]).length - 5 = 0 by simp; omega, List.drop_zero]
  · rw [runState_history, List.foldl_append]
    have hw0 : (pre.foldl windowUpdate (initState.detection_history)).length ≤ 5 :=
      foldl_windowUpdate_le_five pre _ (by simp [initState])
    rw [foldl_windowUpdate_detected post _ hdet, foldl_dequeAppend_eq _ _ hw0]
    have hfl : (post.filterMap bestDetection).length = 5 := by
      rw [filterMap_best_length post hdet, hlen]
    rw [show (pre.foldl windowUpdate (initState.detection_history) ++
          post.filterMap bestDetection).length - 5 =
        (pre.foldl windowUpdate (initState.detection_history)).length by
          simp [hfl], List.drop_left]

/-- Five frames, each carrying one detection, fed after an empty prefix;
one extra detection and a full window exercise the eviction equation. -/
def fiveFrames : List (List Det) :=
  [[("drowsy", mkRat 9 10)], [("notdrowsy", mkRat 1 2)], [("drowsy", mkRat 4 5)],
   [("drowsy", mkRat 7 10)], [("notdrowsy", mkRat 19 20)]]

theorem window_invariant_witness :
    (runState initState fiveFrames).detection_history.length ≤ 5 ∧
    dequeAppend (exWindow) ("drowsy", mkRat 1 2) =
      (if exWindow.length = 5 then exWindow.drop 1 else exWindow) ++ [("drowsy", mkRat 1 2)] ∧
    (runState initState ([] ++ fiveFrames)).detection_history =
      fiveFrames.filterMap bestDetection :=
  window_invariant fiveFrames [] fiveFrames exWindow ("drowsy", mkRat 1 2)
    (by decide) (by decide) (by decide)

end Drowsiness

namespace Y2M

/-- `ERR_FILE_NOT_FOUND` from `y2m/utils.py`. -/
def ERR_FILE_NOT_FOUND : String := "ERR_FILE_NOT_FOUND"

/-- `ERR_INVALID_EXTENSION` from `y2m/utils.py`. -/
def ERR_INVALID_EXTENSION : String := "ERR_INVALID_EXTENSION"

/-- `ERR_FILE_EMPTY` from `y2m/utils.py`. -/
def ERR_FILE_EMPTY : String := "ERR_FILE_EMPTY"

/-- `ERR_READ_PERMISSION` from `y2m/utils.py`. -/
def ERR_READ_PERMISSION : String := "ERR_READ_PERMISSION"

/-- Exit code `EXIT_SUCCESS = 0` from `y2m/cli.py`. -/
def EXIT_SUCCESS : ℕ := 0

/-- Exit code `EXIT_VALIDATION_ERROR = 1` from `y2m/cli.py`. -/
def EXIT_VALIDATION_ERROR : ℕ := 1

/-- Exit code `EXIT_CONVERSION_ERROR = 2` from `y2m/cli.py`. -/
def EXIT_CONVERSION_ERROR : ℕ := 2

/-- The filesystem facts `validate_model_path` queries about its argument:
`path.exists()`, `path.suffix`, `path.stat().st_size`, and
`os.access(path, os.R_OK)`. -/
structure PathInfo where
  pathExists : Bool
  suffix : String
  st_size : ℕ
  readable : Bool
  deriving Repr, DecidableEq

/-- `validate_model_path` from `y2m/utils.py`: the four checks in source
order, returning `(is_valid, error_code or None)`. -/
def validate_model_path (p : PathInfo) : Bool × Option String :=
  if ¬ p.pathExists then (false, some ERR_FILE_NOT_FOUND)
  else if p.suffix.toLower ≠ ".pt" then (false, some ERR_INVALID_EXTENSION)
  else if p.st_size = 0 then (false, some ERR_FILE_EMPTY)
  else if ¬ p.readable then (false, some ERR_READ_PERMISSION)
  else (true, none)

/-- The outcomes of the external collaborators `main` (in `y2m/cli.py`)
consults after validation: `converter.load_model()`,
`converter.export_to_tflite(...) is not None`, and the `--quantize` flag. -/
structure CliEnv where
  weights : PathInfo
  loadOk : Bool
  exportOk : Bool
  quantizeFlag : Bool
  quantizeOk : Bool
  deriving Repr, DecidableEq

/-- The exit code of `main` in `y2m/cli.py`: `EXIT_VALIDATION_ERROR` when
`validate_model_path` fails, `EXIT_CONVERSION_ERROR` when loading or TFLite
export fails, otherwise `EXIT_SUCCESS` (a quantization failure only logs a
warning and does not change the exit code). -/
def mainExitCode (e : CliEnv) : ℕ :=
  if (validate_model_path e.weights).1 = false then EXIT_VALIDATION_ERROR
  else if e.loadOk = false then EXIT_CONVERSION_ERROR
  else if e.exportOk = false then EXIT_CONVERSION_ERROR
  else EXIT_SUCCESS

/-- The environment `ModelOptimizer.quantize_int8` runs in: the bytes of
the float32 TFLite input file, its stem, and whether each of the two
`try` blocks raises (the first covers the TensorFlow import and the
SavedModel-based converter construction; the second covers the fallback's
file read, interpreter construction and copy). -/
structure QuantEnv where
  tfliteBytes : List ℕ
  tfliteStem : String
  mainTryRaises : Bool
  fallbackTryRaises : Bool
  deriving Repr, DecidableEq

/-- The output filename built by `_quantize_from_tflite`:
`f"{self.tflite_path.stem.replace('_float32', '')}_int8.tflite"`. -/
def int8OutputName (env : QuantEnv) : String :=
  (env.tfliteStem.replace "_float32" "") ++ "_int8.tflite"

/-- `ModelOptimizer._quantize_from_tflite` from `y2m/optimizer.py`: inside
a `try`, it reads the float32 model, builds an interpreter, then
`shutil.copy2`s the input file to the `_int8` output path and returns that
path; on any exception it returns `None`. The result is modelled as the
output path name together with the bytes written there. -/
def quantize_from_tflite (env : QuantEnv) : Option (String × List ℕ) :=
  if env.fallbackTryRaises then none
  else some (int8OutputName env, env.tfliteBytes)

/-- `ModelOptimizer.quantize_int8` from `y2m/optimizer.py`: the `try`
block imports TensorFlow and builds a converter `from_saved_model`; if
that does not raise, the block falls through with no `return`, so the
function returns `None`; on any exception it returns
`self._quantize_from_tflite(...)`. -/
def quantize_int8 (env : QuantEnv) : Option (String × List ℕ) :=
  if env.mainTryRaises then quantize_from_tflite env
  else none

/-- C8: `validate_model_path` applies its four checks in order — missing
file, wrong (lower-cased) extension, empty file, unreadable file — each
returning `false` with its error code, and returns `(true, none)` exactly
when all four pass; whenever validation fails, `main` returns the
non-zero exit code `EXIT_VALIDATION_ERROR = 1`. -/
theorem validate_and_exit (p : PathInfo) (e : CliEnv) :
    (p.pathExists = false → validate_model_path p = (false, some ERR_FILE_NOT_FOUND)) ∧
    (p.pathExists = true → p.suffix.toLower ≠ ".pt" →
      validate_model_path p = (false, some ERR_INVALID_EXTENSION)) ∧
    (p.pathExists = true → p.suffix.toLower = ".pt" → p.st_size = 0 →
      validate_model_path p = (false, some ERR_FILE_EMPTY)) ∧
    (p.pathExists = true → p.suffix.toLower = ".pt" → p.st_size ≠ 0 → p.readable = false →
      validate_model_path p = (false, some ERR_READ_PERMISSION)) ∧
    ((validate_model_path p).1 = true ↔
      p.pathExists = true ∧ p.suffix.toLower = ".pt" ∧ p.st_size ≠ 0 ∧ p.readable = true) ∧
    ((validate_model_path p).1 = true → validate_model_path p = (true, none)) ∧
    ((validate_model_path e.weights).1 = false →
      mainExitCode e = EXIT_VALIDATION_ERROR ∧ EXIT_VALIDATION_ERROR ≠ 0) := by
  refine ⟨?_, ?_, ?_, ?_, ?_, ?_, ?_⟩
  · intro h
    simp [validate_model_path, h]
  · intro h hs
    simp [validate_model_path, h, hs]
  · intro h hs hz
    simp [validate_model_path, h, hs, hz]
  · intro h hs hz hr
    simp [validate_model_path, h, hs, hz, hr]
  · obtain ⟨pe, suf, sz, rd⟩ := p
    cases pe <;> cases rd <;> by_cases hs : suf.toLower = ".pt" <;>
      by_cases hz : sz = 0 <;> simp [validate_model_path, hs, hz]
  · obtain ⟨pe, suf, sz, rd⟩ := p
    cases pe <;> cases rd <;> by_cases hs : suf.toLower = ".pt" <;>
      by_cases hz : sz = 0 <;> simp [validate_model_path, hs, hz]
  · intro hv
    refine ⟨?_, by decide⟩
    simp only [mainExitCode]
    rw [if_pos hv]

/-- A path that does not exist. -/
def badPath : PathInfo := ⟨false, ".pt", 10, true⟩

/-- A CLI invocation whose weights path does not exist. -/
def cliEnvBad : CliEnv := ⟨badPath, true, true, false, false⟩

theorem validate_and_exit_witness :
    validate_model_path badPath = (false, some ERR_FILE_NOT_FOUND) ∧
    mainExitCode cliEnvBad = EXIT_VALIDATION_ERROR ∧ EXIT_VALIDATION_ERROR ≠ 0 :=
  ⟨(validate_and_exit badPath cliEnvBad).1 rfl,
    (validate_and_exit badPath cliEnvBad).2.2.2.2.2.2 (by decide)⟩

/-- C10: `quantize_int8` never produces a reduced-precision artifact:
when the SavedModel `try` block does not raise it falls through and
returns `None`; on an exception it runs the fallback, which returns
either `None` or a path whose file contents are a byte-for-byte copy of
the input float32 model. -/
theorem quantize_int8_never_quantizes (env : QuantEnv) :
    (env.mainTryRaises = false → quantize_int8 env = none) ∧
    (env.mainTryRaises = true → quantize_int8 env = quantize_from_tflite env) ∧
    (env.fallbackTryRaises = true → quantize_from_tflite env = none) ∧
    (env.fallbackTryRaises = false →
      quantize_from_tflite env = some (int8OutputName env, env.tfliteBytes)) ∧
    (quantize_int8 env = none ∨
      quantize_int8 env = some (int8OutputName env, env.tfliteBytes)) := by
  obtain ⟨bytes, stem, mt, ft⟩ := env
  cases mt <;> cases ft <;> simp [quantize_int8, quantize_from_tflite]

/-- An optimizer run whose SavedModel branch raises and whose fallback
succeeds. -/
def qEnv0 : QuantEnv := ⟨[7, 7, 7], "best_float32", true, false⟩

theorem quantize_int8_never_quantizes_witness :
    quantize_int8 qEnv0 = quantize_from_tflite qEnv0 ∧
    quantize_from_tflite qEnv0 = some (int8OutputName qEnv0, qEnv0.tfliteBytes) :=
  ⟨(quantize_int8_never_quantizes qEnv0).2.1 rfl,
    (quantize_int8_never_quantizes qEnv0).2.2.2.1 rfl⟩

end Y2M
